import Mathlib

/-!
Verification of the Sovera multi-tenant data platform core against its
natural-language specification.  The definitions below are a shallow
embedding of the Python source under backend/: pure functions become Lean
functions, database/session effects become explicit state passing over
small record types, and fallible code returns Except.  Each section names
the source file and function it embeds.
-/

namespace Sovera

/-! ## Python value model

Row payloads arrive as JSON-decoded Python values (None, bool, int, str,
list, dict).  Floating-point numbers are modelled as rationals; no claim
in this development depends on binary floating-point rounding.
-/

inductive PyVal where
  | vNone : PyVal
  | vBool : Bool → PyVal
  | vInt : Int → PyVal
  | vFloat : Rat → PyVal
  | vStr : String → PyVal
  | vList : List PyVal → PyVal
  | vDict : List (String × PyVal) → PyVal

/-- ASCII lowercase of one character, modelling Python str.lower on the
ASCII range (identifier validation only ever accepts ASCII names). -/
def pyLowerChar (c : Char) : Char :=
  if 'A' ≤ c ∧ c ≤ 'Z' then Char.ofNat (c.toNat + 32) else c

/-- Model of Python str.lower (ASCII-faithful). -/
def pyLower (s : String) : String :=
  String.mk (s.data.map pyLowerChar)

/-- A single-quote character, used by the Python repr of strings. -/
def sq : String := String.singleton (Char.ofNat 39)

mutual

/-- Model of Python repr() for JSON-shaped values.  String escaping inside
repr is simplified (no claim inspects repr of strings containing quotes). -/
def pyRepr : PyVal → String
  | .vNone => "None"
  | .vBool true => "True"
  | .vBool false => "False"
  | .vInt n => toString n
  | .vFloat q => toString q
  | .vStr s => sq ++ s ++ sq
  | .vList xs => "[" ++ pyReprList xs ++ "]"
  | .vDict kvs => "\x7b" ++ pyReprDict kvs ++ "\x7d"

def pyReprList : List PyVal → String
  | [] => ""
  | [x] => pyRepr x
  | x :: xs => pyRepr x ++ ", " ++ pyReprList xs

def pyReprDict : List (String × PyVal) → String
  | [] => ""
  | [kv] => sq ++ kv.1 ++ sq ++ ": " ++ pyRepr kv.2
  | kv :: kvs => sq ++ kv.1 ++ sq ++ ": " ++ pyRepr kv.2 ++ ", " ++ pyReprDict kvs

end

/-- Model of Python str(): identity on strings, repr elsewhere. -/
def pyStr : PyVal → String
  | .vStr s => s
  | v => pyRepr v

/-! ## Permission Engine — backend/utils/rbac.py -/

inductive ProjectRole where
  | owner
  | editor
  | viewer
  deriving DecidableEq, Repr

/-- PermissionManager.PERMISSIONS (rbac.py lines 31-74), verbatim. -/
def PERMISSIONS : ProjectRole → List String
  | .owner =>
    ["project:read", "project:update", "project:delete",
     "members:read", "members:invite", "members:update", "members:remove",
     "tables:read", "tables:create", "tables:update", "tables:delete",
     "data:read", "data:create", "data:update", "data:delete",
     "files:read", "files:upload", "files:delete",
     "settings:read", "settings:update"]
  | .editor =>
    ["project:read",
     "members:read",
     "tables:read", "tables:create", "tables:update", "tables:delete",
     "data:read", "data:create", "data:update", "data:delete",
     "files:read", "files:upload", "files:delete",
     "settings:read"]
  | .viewer =>
    ["project:read",
     "members:read",
     "tables:read",
     "data:read",
     "files:read",
     "settings:read"]

/-- PermissionManager.ROLE_HIERARCHY (rbac.py lines 24-28). -/
def ROLE_HIERARCHY : ProjectRole → List ProjectRole
  | .owner => [.editor, .viewer]
  | .editor => [.viewer]
  | .viewer => []

/-- PermissionManager.has_permission (rbac.py lines 95-98). -/
def has_permission (role : ProjectRole) (permission : String) : Bool :=
  (PERMISSIONS role).contains permission

/-- PermissionManager.has_role_or_higher (rbac.py lines 100-107). -/
def has_role_or_higher (userRole requiredRole : ProjectRole) : Bool :=
  userRole == requiredRole || (ROLE_HIERARCHY userRole).contains requiredRole

/-- PermissionManager.get_effective_permissions (rbac.py lines 109-121):
direct permissions plus the permissions of every lower role. -/
def get_effective_permissions (role : ProjectRole) : List String :=
  PERMISSIONS role ++ (ROLE_HIERARCHY role).flatMap PERMISSIONS

/-! ## Fixed-schema records — backend/models/project.py,
backend/models/project_membership.py

Only the fields the embedded operations read or write are carried. -/

structure ProjectRec where
  id : Nat
  name : String
  description : Option String
  slug : String
  db_name : String
  bucket_name : String
  provisioning_status : String
  owner_id : Nat
  max_items : Int
  storage_limit_mb : Int
  api_rate_limit : Int
  webhook_url : Option String
  is_public : Bool
  auto_backup : Bool
  backup_retention_days : Int
  deriving DecidableEq, Repr

structure MembershipRec where
  user_id : Nat
  project_id : Nat
  role : ProjectRole
  status : String
  deriving DecidableEq, Repr

/-- The fixed-schema application database, as far as role resolution and
access gates read it.  List order models SQL result order. -/
structure AppDB where
  projects : List ProjectRec
  memberships : List MembershipRec
  deriving DecidableEq, Repr

/-- session.get(Project, project_id): primary-key lookup. -/
def projGet (db : AppDB) (pid : Nat) : Option ProjectRec :=
  db.projects.find? (fun p => p.id == pid)

/-- PermissionManager.get_user_role (rbac.py lines 76-93): the recorded
owner resolves to OWNER; otherwise the first accepted membership row for
(user, project) supplies the role; otherwise none. -/
def get_user_role (uid pid : Nat) (db : AppDB) : Option ProjectRole :=
  let ownerHit :=
    match projGet db pid with
    | some p => p.owner_id == uid
    | none => false
  if ownerHit then
    some .owner
  else
    (db.memberships.find? (fun m =>
      m.user_id == uid && m.project_id == pid && m.status == "accepted")).map
      (fun m => m.role)

/-! ## Access gates

backend/projects/table_rows_router.py and backend/projects/tables_router.py.
HTTP failures are modelled by their status constructors. -/

inductive HttpErr where
  | notFound
  | forbidden
  | badRequest
  deriving DecidableEq, Repr

/-- get_project_and_verify_access (table_rows_router.py lines 27-43): the
gate in front of every dynamic row operation.  It checks record existence,
then literal ownership, then provisioning status; it never consults
get_user_role or has_permission. -/
def rows_verify_access (pid uid : Nat) (db : AppDB) : Except HttpErr ProjectRec :=
  match projGet db pid with
  | none => .error .notFound
  | some project =>
    if project.owner_id != uid then .error .forbidden
    else if project.provisioning_status != "completed" then .error .badRequest
    else .ok project

/-- get_project_with_role (rbac.py lines 154-181): record existence, role
resolution through the Permission Engine, then hierarchy check. -/
def get_project_with_role (requiredRole : ProjectRole) (pid uid : Nat)
    (db : AppDB) : Except HttpErr ProjectRec :=
  match projGet db pid with
  | none => .error .notFound
  | some project =>
    match get_user_role uid pid db with
    | none => .error .forbidden
    | some userRole =>
      if has_role_or_higher userRole requiredRole then .ok project
      else .error .forbidden

/-- require_project_editor (rbac.py lines 214-220). -/
def require_project_editor (pid uid : Nat) (db : AppDB) : Except HttpErr ProjectRec :=
  get_project_with_role .editor pid uid db

/-- require_project_viewer (rbac.py lines 222-228). -/
def require_project_viewer (pid uid : Nat) (db : AppDB) : Except HttpErr ProjectRec :=
  get_project_with_role .viewer pid uid db

/-- create_table (tables_router.py lines 40-72) access path: the
require_project_editor dependency, followed by the in-body provisioning
status recheck. -/
def create_table_gate (pid uid : Nat) (db : AppDB) : Except HttpErr ProjectRec := do
  let project ← require_project_editor pid uid db
  if project.provisioning_status != "completed" then .error .badRequest
  else .ok project

/-! ## Slug and infrastructure name generation

backend/models/project.py generate_slug and
backend/services/provisioning.py generate_project_names.  The random
uuid4().hex[:8] suffix is passed in explicitly. -/

/-- Python \s whitespace class over ASCII. -/
def isPySpace (c : Char) : Bool :=
  c == ' ' || c == '\t' || c == '\n' || c == '\r' ||
    c == Char.ofNat 11 || c == Char.ofNat 12

/-- Characters kept by the first substitution in generate_slug
(everything outside [^a-zA-Z0-9\s-] is removed). -/
def slugKeep (c : Char) : Bool :=
  c.isAlphanum || isPySpace c || c == '-'

/-- str.strip(): drop whitespace from both ends. -/
def pyStrip (cs : List Char) : List Char :=
  ((cs.dropWhile isPySpace).reverse.dropWhile isPySpace).reverse

/-- Collapse each run of consecutive occurrences of x into one. -/
def collapseRuns (x : Char) : List Char → List Char
  | [] => []
  | c :: rest =>
    if c == x && rest.head? == some x then collapseRuns x rest
    else c :: collapseRuns x rest

/-- generate_slug (project.py lines 13-18): lowercase, strip the
disallowed characters, collapse whitespace runs to hyphens, collapse
hyphen runs, append the random suffix.  (Whitespace runs are mapped
character-wise to hyphens; the subsequent hyphen-run collapse makes this
equal to the one-hyphen-per-run substitution of the source.) -/
def generate_slug (name : String) (suffix : String) : String :=
  let s1 := ((pyLower name).data.filter slugKeep)
  let s2 := (pyStrip s1).map (fun c => if isPySpace c then '-' else c)
  let s3 := collapseRuns '-' s2
  String.mk s3 ++ "-" ++ suffix

/-- Replace one character by another in every position (str.replace for
single-character arguments). -/
def strReplaceChar (a b : Char) (s : String) : String :=
  String.mk (s.data.map (fun c => if c == a then b else c))

/-- String slicing s[:n]. -/
def strTake (s : String) (n : Nat) : String :=
  String.mk (s.data.take n)

/-- ProvisioningService.generate_project_names (provisioning.py lines
43-53): fresh slug, derived database and bucket identifiers, lowercased
and truncated to 63 characters. -/
def generate_project_names (project_name suffix : String) :
    String × String × String :=
  let slug := generate_slug project_name suffix
  let db_name := "project_" ++ strReplaceChar '-' '_' slug ++ "_db"
  let bucket_name := "project-" ++ slug ++ "-bucket"
  (slug, strTake (pyLower db_name) 63, strTake (pyLower bucket_name) 63)

/-- ProjectCreate (models/project.py lines 53-60). -/
structure ProjectCreate where
  name : String
  description : Option String
  max_items : Option Int
  storage_limit_mb : Option Int
  api_rate_limit : Option Int
  webhook_url : Option String
  is_public : Option Bool
  auto_backup : Option Bool
  backup_retention_days : Option Int
  deriving DecidableEq, Repr

/-- Python `x or d` for optional integers: None and 0 are falsy. -/
def pyOrInt (v : Option Int) (d : Int) : Int :=
  match v with
  | none => d
  | some n => if n == 0 then d else n

/-- Python `x or False` for optional booleans. -/
def pyOrFalse (v : Option Bool) : Bool :=
  match v with
  | none => false
  | some b => b

/-- create_project (projects/router.py lines 82-107): the record is born
with slug, db_name and bucket_name derived from the name and a random
suffix (no truncation or lowering on this path), status pending. -/
def create_project (pin : ProjectCreate) (uid : Nat) (suffix : String)
    (pid : Nat) : ProjectRec :=
  let slug := generate_slug pin.name suffix
  { id := pid
    name := pin.name
    description := pin.description
    slug := slug
    db_name := "project_" ++ strReplaceChar '-' '_' slug ++ "_db"
    bucket_name := "project-" ++ slug ++ "-bucket"
    provisioning_status := "pending"
    owner_id := uid
    max_items := pyOrInt pin.max_items 1000
    storage_limit_mb := pyOrInt pin.storage_limit_mb 100
    api_rate_limit := pyOrInt pin.api_rate_limit 1000
    webhook_url := pin.webhook_url
    is_public := pyOrFalse pin.is_public
    auto_backup := pin.auto_backup.getD true
    backup_retention_days := pyOrInt pin.backup_retention_days 30 }

/-- provision_project_infrastructure (projects/router.py lines 23-60),
success path: ProvisioningService.provision_project regenerates the names
from a fresh random suffix and the task overwrites slug, db_name and
bucket_name before marking the project completed. -/
def provision_success (project_name fresh_suffix : String)
    (p : ProjectRec) : ProjectRec :=
  let names := generate_project_names project_name fresh_suffix
  { p with slug := names.1, db_name := names.2.1, bucket_name := names.2.2,
           provisioning_status := "completed" }

/-- provision_project_infrastructure, failure path (router.py lines
45-60): only the status changes. -/
def provision_failed (p : ProjectRec) : ProjectRec :=
  { p with provisioning_status := "failed" }

/-- ProjectUpdate (models/project.py lines 62-71): the full set of fields
a project update may carry; db_name and bucket_name are not among them. -/
structure ProjectUpdate where
  name : Option String
  description : Option String
  max_items : Option Int
  storage_limit_mb : Option Int
  api_rate_limit : Option Int
  webhook_url : Option String
  is_public : Option Bool
  auto_backup : Option Bool
  backup_retention_days : Option Int
  deriving DecidableEq, Repr

/-- update_project (projects/router.py lines 135-152): setattr of every
field present in the update (model_dump with exclude_unset; a field left
as none is absent from the dump and keeps its old value). -/
def update_project_apply (u : ProjectUpdate) (p : ProjectRec) : ProjectRec :=
  { p with
    name := u.name.getD p.name
    description := match u.description with
      | some d => some d
      | none => p.description
    max_items := u.max_items.getD p.max_items
    storage_limit_mb := u.storage_limit_mb.getD p.storage_limit_mb
    api_rate_limit := u.api_rate_limit.getD p.api_rate_limit
    webhook_url := match u.webhook_url with
      | some w => some w
      | none => p.webhook_url
    is_public := u.is_public.getD p.is_public
    auto_backup := u.auto_backup.getD p.auto_backup
    backup_retention_days := u.backup_retention_days.getD p.backup_retention_days }

/-! ## Schema Engine validation — backend/models/table_schema.py -/

inductive ColumnType where
  | INTEGER | BIGINT | SMALLINT | DECIMAL | NUMERIC | REAL | DOUBLE_PRECISION
  | TEXT | VARCHAR | CHAR
  | TIMESTAMP | TIMESTAMPTZ | DATE | TIME
  | BOOLEAN
  | JSON | JSONB
  | UUID
  deriving DecidableEq, Repr

/-- The SQL token of a column type (ColumnType.value). -/
def ColumnType.value : ColumnType → String
  | .INTEGER => "INTEGER" | .BIGINT => "BIGINT" | .SMALLINT => "SMALLINT"
  | .DECIMAL => "DECIMAL" | .NUMERIC => "NUMERIC" | .REAL => "REAL"
  | .DOUBLE_PRECISION => "DOUBLE PRECISION"
  | .TEXT => "TEXT" | .VARCHAR => "VARCHAR" | .CHAR => "CHAR"
  | .TIMESTAMP => "TIMESTAMP" | .TIMESTAMPTZ => "TIMESTAMPTZ"
  | .DATE => "DATE" | .TIME => "TIME"
  | .BOOLEAN => "BOOLEAN"
  | .JSON => "JSON" | .JSONB => "JSONB"
  | .UUID => "UUID"

structure ColumnSchema where
  name : String
  type : ColumnType
  nullable : Bool := true
  primary_key : Bool := false
  unique : Bool := false
  default : Option String := none
  length : Option Int := none
  deriving DecidableEq, Repr

def isIdentStart (c : Char) : Bool := c.isAlpha || c == '_'

def isIdentCont (c : Char) : Bool := c.isAlphanum || c == '_'

/-- The core of re.match against the identifier pattern. -/
def identCore : List Char → Bool
  | [] => false
  | c :: cs => isIdentStart c && cs.all isIdentCont

/-- Model of Python re.match with pattern start-anchor, the identifier
classes and a dollar end-anchor: in Python the dollar also matches just
before one final newline, so a name followed by a single trailing newline
is accepted. -/
def pymatchIdent (s : String) : Bool :=
  if s.data.getLast? == some '\n' then identCore s.data.dropLast
  else identCore s.data

/-- The reserved keyword list of ColumnSchema.validate_column_name
(table_schema.py lines 59-64). -/
def reserved_keywords : List String :=
  ["select", "from", "where", "insert", "update", "delete", "create",
   "drop", "alter", "table", "index", "primary", "key", "foreign",
   "references", "constraint", "user", "order", "group", "having",
   "union", "join", "inner", "outer", "left", "right", "on", "as"]

/-- The reserved table-name set of TableSchemaCreate.validate_table_name
(table_schema.py lines 93-96). -/
def reserved_table_names : List String :=
  ["user", "users", "project", "projects", "schema", "information_schema",
   "pg_catalog", "pg_tables", "pg_indexes", "pg_views", "pg_sequences"]

inductive ValErr where
  | badIdent
  | reservedKeyword (name : String)
  | reservedTableName (name : String)
  | noColumns
  | duplicateColumns
  | multiplePrimaryKeys
  | badLength
  deriving DecidableEq, Repr

/-- ColumnSchema.validate_column_name (table_schema.py lines 52-68). -/
def validate_column_name (v : String) : Except ValErr String :=
  if pymatchIdent v = false then .error .badIdent
  else if reserved_keywords.contains (pyLower v) then .error (.reservedKeyword v)
  else .ok (pyLower v)

/-- TableSchemaCreate.validate_table_name (table_schema.py lines 86-100). -/
def validate_table_name (v : String) : Except ValErr String :=
  if pymatchIdent v = false then .error .badIdent
  else if reserved_table_names.contains (pyLower v) then
    .error (.reservedTableName v)
  else .ok (pyLower v)

/-- The synthesized auto-increment primary key
(table_schema.py lines 121-126). -/
def default_id_column : ColumnSchema :=
  { name := "id", type := .INTEGER, nullable := false, primary_key := true }

/-- TableSchemaCreate.validate_columns (table_schema.py lines 102-129):
duplicate-name check, at-most-one-primary-key check, then, when no
primary key was declared, the auto-increment id column is prepended. -/
def validate_columns (v : List ColumnSchema) : Except ValErr (List ColumnSchema) :=
  if v.isEmpty then .error .noColumns
  else
    let names := v.map (fun col => pyLower col.name)
    if names.length ≠ names.dedup.length then .error .duplicateColumns
    else if (v.filter (fun col => col.primary_key)).length > 1 then
      .error .multiplePrimaryKeys
    else if (v.filter (fun col => col.primary_key)).isEmpty then
      .ok (default_id_column :: v)
    else .ok v

/-! ## Schema Engine DDL — backend/services/table_provisioning.py -/

def quoteIdent (s : String) : String := "\"" ++ s ++ "\""

/-- TableProvisioningService.build_column_definition (table_provisioning.py
lines 32-58). -/
def build_column_definition (column : ColumnSchema) : String :=
  let typePart :=
    match column.type, column.length with
    | .VARCHAR, some n => "VARCHAR(" ++ toString n ++ ")"
    | .CHAR, some n => "CHAR(" ++ toString n ++ ")"
    | t, _ => t.value
  let typePart := if column.primary_key && column.type == .INTEGER then "SERIAL" else typePart
  let parts := [quoteIdent column.name, typePart]
  let parts := if column.nullable then parts else parts ++ ["NOT NULL"]
  let parts := if column.unique && !column.primary_key then parts ++ ["UNIQUE"] else parts
  let parts := if column.primary_key then parts ++ ["PRIMARY KEY"] else parts
  let parts :=
    match column.default with
    | some d => parts ++ ["DEFAULT " ++ d]
    | none => parts
  " ".intercalate parts

/-- TableProvisioningService.build_create_table_sql (table_provisioning.py
lines 60-81), the CREATE TABLE statement without the surrounding
f-string indentation. -/
def build_create_table_sql (table_name : String) (columns : List ColumnSchema) : String :=
  "CREATE TABLE " ++ quoteIdent table_name ++ " (" ++
    ",".intercalate (columns.map build_column_definition) ++ ");"

/-! ## Dynamic Row Access Layer — backend/projects/table_rows_router.py

Introspected column shape (get_table_columns result entries, the keys the
insert/select paths read). -/

structure ColInfo where
  name : String
  type : String
  nullable : Bool
  default : Option String
  is_primary_key : Bool
  deriving DecidableEq, Repr

inductive TRErr where
  | tableNotFound
  | unknownColumn (name : String)
  | missingColumns (names : List String)
  | noValidColumns
  | conversionFailed
  | paramCountMismatch
  | notNullViolation (name : String)
  | undefinedColumnId
  deriving DecidableEq, Repr

/-- Python int() on a string: optional surrounding whitespace, optional
sign, a nonempty digit run.  (Underscore digit separators are not
modelled; no claim uses them.) -/
def pyIntParse (s : String) : Except TRErr Int :=
  let t := pyStrip s.data
  let signed : Bool × List Char :=
    match t with
    | '-' :: rest => (true, rest)
    | '+' :: rest => (false, rest)
    | _ => (false, t)
  if signed.2.isEmpty || !(signed.2.all Char.isDigit) then .error .conversionFailed
  else
    let mag : Nat := signed.2.foldl (fun acc c => acc * 10 + (c.toNat - 48)) 0
    .ok (if signed.1 then -(mag : Int) else (mag : Int))

/-- Python int(value) for the JSON value universe: booleans become 0/1,
floats truncate toward zero, strings parse, containers and None raise. -/
def pyInt : PyVal → Except TRErr Int
  | .vBool b => .ok (if b then 1 else 0)
  | .vInt n => .ok n
  | .vFloat q => .ok (if 0 ≤ q then ⌊q⌋ else ⌈q⌉)
  | .vStr s => pyIntParse s
  | _ => .error .conversionFailed

/-- Python float() on a string: optional sign, digits, optional fractional
part.  (Exponent, inf and nan forms are not modelled; no claim uses them.) -/
def pyFloatParse (s : String) : Except TRErr Rat :=
  let t := pyStrip s.data
  let signed : Bool × List Char :=
    match t with
    | '-' :: rest => (true, rest)
    | '+' :: rest => (false, rest)
    | _ => (false, t)
  let intPart := signed.2.takeWhile Char.isDigit
  let rest := signed.2.drop intPart.length
  let parsed : Option Rat :=
    match rest with
    | [] =>
      if intPart.isEmpty then none
      else some ((intPart.foldl (fun acc c => acc * 10 + (c.toNat - 48)) 0 : Nat) : Rat)
    | '.' :: frac =>
      if (intPart.isEmpty && frac.isEmpty) || !(frac.all Char.isDigit) then none
      else
        let ip : Nat := intPart.foldl (fun acc c => acc * 10 + (c.toNat - 48)) 0
        let fp : Nat := frac.foldl (fun acc c => acc * 10 + (c.toNat - 48)) 0
        some ((ip : Rat) + (fp : Rat) / ((10 : Rat) ^ frac.length))
    | _ => none
  match parsed with
  | some q => .ok (if signed.1 then -q else q)
  | none => .error .conversionFailed

/-- Python float(value): booleans become 0/1, ints widen, strings parse,
containers and None raise. -/
def pyFloat : PyVal → Except TRErr Rat
  | .vBool b => .ok (if b then 1 else 0)
  | .vInt n => .ok (n : Rat)
  | .vFloat q => .ok q
  | .vStr s => pyFloatParse s
  | _ => .error .conversionFailed

mutual

/-- json.dumps for the JSON value universe (string escaping simplified;
no claim inspects dumps of strings containing quotes). -/
def jsonDumps : PyVal → String
  | .vNone => "null"
  | .vBool true => "true"
  | .vBool false => "false"
  | .vInt n => toString n
  | .vFloat q => toString q
  | .vStr s => "\"" ++ s ++ "\""
  | .vList xs => "[" ++ jsonDumpsList xs ++ "]"
  | .vDict kvs => "\x7b" ++ jsonDumpsDict kvs ++ "\x7d"

def jsonDumpsList : List PyVal → String
  | [] => ""
  | [x] => jsonDumps x
  | x :: xs => jsonDumps x ++ ", " ++ jsonDumpsList xs

def jsonDumpsDict : List (String × PyVal) → String
  | [] => ""
  | [kv] => "\"" ++ kv.1 ++ "\": " ++ jsonDumps kv.2
  | kv :: kvs => "\"" ++ kv.1 ++ "\": " ++ jsonDumps kv.2 ++ ", " ++ jsonDumpsDict kvs

end

/-- A value bound as a positional INSERT parameter. -/
inductive PgVal where
  | null
  | int (n : Int)
  | num (q : Rat)
  | bool (b : Bool)
  | text (s : String)
  deriving DecidableEq, Repr

/-- The canonical truthy token set of the boolean branch
(table_rows_router.py line 163). -/
def truthyTokens : List String := ["true", "1", "yes", "on"]

/-- convert_python_to_postgres_value (table_rows_router.py lines 150-174). -/
def convert_python_to_postgres_value (value : PyVal) (pg_type : String) :
    Except TRErr PgVal :=
  match value with
  | .vNone => .ok .null
  | v =>
    if ["integer", "bigint", "smallint"].contains pg_type then
      (pyInt v).map .int
    else if ["real", "double precision", "numeric", "decimal"].contains pg_type then
      (pyFloat v).map .num
    else if pg_type == "boolean" then
      match v with
      | .vBool b => .ok (.bool b)
      | _ => .ok (.bool (truthyTokens.contains (pyLower (pyStr v))))
    else if ["json", "jsonb"].contains pg_type then
      match v with
      | .vList xs => .ok (.text (jsonDumps (.vList xs)))
      | .vDict kvs => .ok (.text (jsonDumps (.vDict kvs)))
      | w => .ok (.text (pyStr w))
    else if ["timestamp", "timestamptz", "date", "time"].contains pg_type then
      match v with
      | .vStr s => .ok (.text s)
      | w => .ok (.text (pyStr w))
    else
      .ok (.text (pyStr v))

/-- str(column_info["default"]) as used by the nextval test. -/
def defaultStr (d : Option String) : String :=
  match d with
  | none => "None"
  | some s => s

/-- Whether the first list is a prefix of the second. -/
def startsWithList : List Char → List Char → Bool
  | [], _ => true
  | _ :: _, [] => false
  | a :: as, b :: bs => a == b && startsWithList as bs

/-- Python `needle in haystack` substring membership. -/
def containsSeq (needle : List Char) : List Char → Bool
  | [] => needle.isEmpty
  | c :: rest => startsWithList needle (c :: rest) || containsSeq needle rest

/-- The insert-build loop of insert_dynamic_row (table_rows_router.py
lines 211-226): one pass over the payload in order, with the running
index i starting at 1; auto-increment primary keys are skipped, but the
index keeps advancing. -/
structure InsertPlan where
  columns : List String
  values : List PgVal
  placeholders : List String
  deriving DecidableEq, Repr

def buildInsertItems (cols : List ColInfo) :
    List (String × PyVal) → Nat → Except TRErr InsertPlan
  | [], _ => .ok ⟨[], [], []⟩
  | (k, v) :: rest, i =>
    match cols.find? (fun c => c.name == k) with
    | none => .error (.unknownColumn k)
    | some c =>
      if c.is_primary_key && containsSeq "nextval".data (defaultStr c.default).data then
        buildInsertItems cols rest (i + 1)
      else do
        let pv ← convert_python_to_postgres_value v c.type
        let p ← buildInsertItems cols rest (i + 1)
        .ok ⟨quoteIdent k :: p.columns, pv :: p.values,
             ("$" ++ toString i) :: p.placeholders⟩

/-- The required-column computation of insert_dynamic_row
(table_rows_router.py lines 201-205): non-nullable, no default, and not a
primary key — any primary key, auto-increment or not. -/
def requiredNames (cols : List ColInfo) : List String :=
  (cols.filter (fun c => !c.nullable && c.default.isNone && !c.is_primary_key)).map
    (fun c => c.name)

/-- Whether executing the built INSERT would violate NOT NULL on column c:
a bound null, or an omitted column with neither default nor nullability. -/
def notNullViolated (c : ColInfo) (plan : InsertPlan) : Bool :=
  !c.nullable &&
    (match (plan.columns.zip plan.values).find? (fun cv => cv.1 == quoteIdent c.name) with
     | some cv => cv.2 == PgVal.null
     | none => c.default.isNone)

/-- PostgreSQL execution of the built INSERT (conn.fetchrow with the plan
values as positional arguments): the server derives the statement's
parameter count from the placeholder indices, so the call fails unless the
placeholders are exactly dollar-1 .. dollar-n for the n supplied values;
then NOT NULL constraints are enforced.  Uniqueness constraints are not
modelled (no claim depends on them). -/
def pgExecInsert (cols : List ColInfo) (plan : InsertPlan) : Except TRErr Unit :=
  if plan.placeholders ≠ (List.range plan.values.length).map
      (fun i => "$" ++ toString (i + 1)) then
    .error .paramCountMismatch
  else
    match cols.find? (fun c => notNullViolated c plan) with
    | some c => .error (.notNullViolation c.name)
    | none => .ok ()

/-- insert_dynamic_row (table_rows_router.py lines 176-269), for a table
whose introspected columns are cols: unknown-key validation, the
required-column check, the build loop, the empty-column guard, then
execution of the generated statement. -/
def insert_dynamic_row (cols : List ColInfo) (payload : List (String × PyVal)) :
    Except TRErr InsertPlan :=
  match payload.find? (fun kv => (cols.find? (fun c => c.name == kv.1)).isNone) with
  | some kv => .error (.unknownColumn kv.1)
  | none =>
    let keys := payload.map (fun kv => kv.1)
    let missing := (requiredNames cols).filter (fun n => !(keys.contains n))
    if !missing.isEmpty then .error (.missingColumns missing)
    else
      match buildInsertItems cols payload 1 with
      | .error e => .error e
      | .ok plan =>
        if plan.columns.isEmpty then .error .noValidColumns
        else
          match pgExecInsert cols plan with
          | .error e => .error e
          | .ok _ => .ok plan

/-- A stored row of a dynamic table. -/
abbrev Row := List (String × PgVal)

structure DynTable where
  columns : List ColInfo
  rows : List Row
  deriving DecidableEq, Repr

/-- The sort key of ORDER BY id: the value of the column literally named
id.  Integer ids are the only case any claim exercises; other shapes take
a junk key. -/
def rowIdKey (r : Row) : Int :=
  match r.find? (fun kv => kv.1 == "id") with
  | some kv =>
    match kv.2 with
    | .int n => n
    | _ => 0
  | none => 0

def rowLe (a b : Row) : Prop := rowIdKey a ≤ rowIdKey b

instance : DecidableRel rowLe := fun a b =>
  inferInstanceAs (Decidable (rowIdKey a ≤ rowIdKey b))

instance : IsTotal Row rowLe := ⟨fun a b => Int.le_total (rowIdKey a) (rowIdKey b)⟩

instance : IsTrans Row rowLe := ⟨fun _ _ _ h1 h2 => le_trans h1 h2⟩

/-- get_table_rows (table_rows_router.py lines 271-326): existence check,
then SELECT star FROM table ORDER BY id with optional LIMIT and OFFSET
appended.  The statement names the column id literally; PostgreSQL raises
undefined-column when the table has no such column, and otherwise sorts by
it, applying OFFSET before LIMIT. -/
def get_table_rows (table : Option DynTable) (limit offset : Option Nat) :
    Except TRErr (List Row) :=
  match table with
  | none => .error .tableNotFound
  | some t =>
    if !(t.columns.map (fun c => c.name)).contains "id" then .error .undefinedColumnId
    else
      let sorted := t.rows.insertionSort rowLe
      let afterOffset :=
        match offset with
        | some o => sorted.drop o
        | none => sorted
      let result :=
        match limit with
        | some l => afterOffset.take l
        | none => afterOffset
      .ok result

/-! ## Change Fan-out Service — backend/utils/websocket_manager.py

Connections are identifiers; the registry maps project to table to the
set of subscribed connections, as an association list whose value sets are
duplicate-free lists. -/

inductive PyRuntimeErr where
  | dictSizeChangedDuringIteration
  deriving DecidableEq, Repr

structure WSManager where
  connections : List (Nat × List (String × List Nat))
  connection_users : List (Nat × Nat)
  pg_listeners : List Nat
  deriving DecidableEq, Repr

/-- The inner loop of WebSocketManager.disconnect (websocket_manager.py
lines 64-70): iterate the live table dict, discard the connection from
each set, and delete the entry when the set becomes empty.  CPython
raises RuntimeError on the next iteration step after any deletion from
the dict being iterated, so the loop raises whenever a set empties. -/
def ws_inner (ws : Nat) : List (String × List Nat) →
    Except PyRuntimeErr (List (String × List Nat))
  | [] => .ok []
  | (t, conns) :: rest =>
    let conns2 := conns.erase ws
    if conns2.isEmpty then .error .dictSizeChangedDuringIteration
    else (ws_inner ws rest).map (fun r => (t, conns2) :: r)

/-- The outer loop of WebSocketManager.disconnect (websocket_manager.py
lines 64-77): iterate the live connections dict and delete a project
entry whose table dict is empty — which likewise raises on the next
iteration step. -/
def ws_outer (ws : Nat) : List (Nat × List (String × List Nat)) →
    Except PyRuntimeErr (List (Nat × List (String × List Nat)))
  | [] => .ok []
  | (pid, tables) :: rest =>
    match ws_inner ws tables with
    | .error e => .error e
    | .ok tables2 =>
      if tables2.isEmpty then .error .dictSizeChangedDuringIteration
      else (ws_outer ws rest).map (fun r => (pid, tables2) :: r)

/-- WebSocketManager.disconnect (websocket_manager.py lines 59-80): pop
the user entry, then walk every project and table set.  An error result
models the RuntimeError escaping disconnect (the exception aborts the
walk midway; the partially mutated registry is not tracked further). -/
def wsDisconnect (ws : Nat) (m : WSManager) : Except PyRuntimeErr WSManager :=
  let users2 := m.connection_users.filter (fun kv => kv.1 ≠ ws)
  (ws_outer ws m.connections).map
    (fun cs => ⟨cs, users2, m.pg_listeners⟩)

/-! ## Concrete fixtures used by witnesses and counterexamples -/

/-- A provisioned project owned by user 1. -/
def pFix : ProjectRec :=
  { id := 1, name := "p", description := none, slug := "p-a",
    db_name := "project_p_a_db", bucket_name := "project-p-a-bucket",
    provisioning_status := "completed", owner_id := 1, max_items := 1000,
    storage_limit_mb := 100, api_rate_limit := 1000, webhook_url := none,
    is_public := false, auto_backup := true, backup_retention_days := 30 }

/-- State with project 1 and an accepted editor membership for user 2. -/
def dbEditorFix : AppDB := ⟨[pFix], [⟨2, 1, .editor, "accepted"⟩]⟩

/-- State with project 1 and a rejected membership for user 2. -/
def dbRejectedFix : AppDB := ⟨[pFix], [⟨2, 1, .editor, "rejected"⟩]⟩

/-! ## Claim theorems -/

/-- Claim C10: boolean value coercion is total and never raises — an
already-boolean value is returned unchanged, null passes through as null,
and every other value becomes true exactly when its lowercase string form
is one of true, 1, yes, on, and false otherwise (unrecognized tokens are
coerced to false, not rejected). -/
theorem C10_boolean_coercion_total (v : PyVal) :
    convert_python_to_postgres_value v "boolean" =
      .ok (match v with
        | .vNone => PgVal.null
        | .vBool b => PgVal.bool b
        | w => PgVal.bool (truthyTokens.contains (pyLower (pyStr w)))) := by
  cases v <;> rfl

/-- Claim C8 (code bug): disconnect does not complete without raising.
On a registry where the connection is the sole subscriber of a table, the
deletion of the emptied entry happens while the same dict is being
iterated, so CPython raises RuntimeError; when no set empties, disconnect
completes and removes the connection. -/
theorem C8_disconnect_eval :
    wsDisconnect 7 ⟨[(1, [("users", [7])])], [(7, 42)], [1]⟩ =
      .error .dictSizeChangedDuringIteration ∧
    wsDisconnect 7 ⟨[(1, [("users", [7, 8])])], [(7, 42)], [1]⟩ =
      .ok ⟨[(1, [("users", [8])])], [], [1]⟩ := by
  exact ⟨rfl, rfl⟩

/-- Claim C9 (code bug): a column list declaring a non-primary-key column
named id and no primary key passes validation, and the synthesized
auto-increment id primary key is prepended anyway, so the resulting
specification holds two columns named id. -/
theorem C9_duplicate_id_eval :
    (validate_columns [{ name := "id", type := ColumnType.INTEGER }]).toOption.map
      (fun cs => cs.map (fun c => c.name)) = some ["id", "id"] := by
  rfl

/-- Claim C5 counterexample: the table-name validator accepts the
platform table names items, project_metadata and files, and accepts the
reserved SQL keyword select as a table name — the claim says each of
these is rejected before any database I/O. -/
theorem C5_counterexample :
    validate_table_name "items" = .ok "items" ∧
    validate_table_name "project_metadata" = .ok "project_metadata" ∧
    validate_table_name "files" = .ok "files" ∧
    validate_table_name "select" = .ok "select" := by
  exact ⟨rfl, rfl, rfl, rfl⟩

/-- Claim C5 as amended: table-name validation accepts a name exactly
when it matches the Python identifier pattern and its lowercase form is
outside the reserved table-name set user/users/project/projects/schema
and the system catalogs; column-name validation accepts a name exactly
when it matches the pattern and its lowercase form is outside the SQL
keyword list; accepted names are case-folded to lowercase, and both
reserved checks test the lowercase form, so uppercase variants of a
reserved name are rejected identically. -/
theorem C5_amended_validation (s : String) :
    (validate_table_name s).toOption =
      (if pymatchIdent s && !(reserved_table_names.contains (pyLower s))
       then some (pyLower s) else none) ∧
    (validate_column_name s).toOption =
      (if pymatchIdent s && !(reserved_keywords.contains (pyLower s))
       then some (pyLower s) else none) := by
  constructor
  · cases hm : pymatchIdent s <;>
      by_cases hr : pyLower s ∈ reserved_table_names <;>
        simp [validate_table_name, hm, hr, Except.toOption]
  · cases hm : pymatchIdent s <;>
      by_cases hr : pyLower s ∈ reserved_keywords <;>
        simp [validate_column_name, hm, hr, Except.toOption]

/-- Claim C2 counterexample: the successful background provisioning task
overwrites db_name with a name regenerated from a fresh random suffix, so
the value after provisioning differs from the value assigned at creation. -/
theorem C2_counterexample :
    (provision_success "blog" "bbbbbbbb"
        (create_project ⟨"blog", none, none, none, none, none, none, none, none⟩
          1 "aaaaaaaa" 1)).db_name ≠
      (create_project ⟨"blog", none, none, none, none, none, none, none, none⟩
          1 "aaaaaaaa" 1).db_name := by
  decide

/-- Claim C2 as amended: db_name and bucket_name are assigned at creation
from the name and a random slug suffix; the successful provisioning task
reassigns both exactly once to names regenerated from a fresh slug
(lowercased and truncated to 63 characters); the provisioning failure
path and project updates leave both unchanged. -/
theorem C2_amended_name_lifecycle (pin : ProjectCreate) (uid pid : Nat)
    (s1 s2 : String) (p : ProjectRec) (u : ProjectUpdate) :
    (create_project pin uid s1 pid).db_name =
      "project_" ++ strReplaceChar '-' '_' (generate_slug pin.name s1) ++ "_db" ∧
    (create_project pin uid s1 pid).bucket_name =
      "project-" ++ generate_slug pin.name s1 ++ "-bucket" ∧
    (provision_failed p).db_name = p.db_name ∧
    (provision_failed p).bucket_name = p.bucket_name ∧
    (update_project_apply u p).db_name = p.db_name ∧
    (update_project_apply u p).bucket_name = p.bucket_name ∧
    (provision_success pin.name s2 p).db_name =
      strTake (pyLower ("project_" ++
        strReplaceChar '-' '_' (generate_slug pin.name s2) ++ "_db")) 63 ∧
    (provision_success pin.name s2 p).bucket_name =
      strTake (pyLower ("project-" ++ generate_slug pin.name s2 ++ "-bucket")) 63 := by
  exact ⟨rfl, rfl, rfl, rfl, rfl, rfl, rfl, rfl⟩

/-- Claim C7: role resolution returns OWNER for the recorded owner even
with zero membership rows; otherwise the accepted membership row supplies
the role; a user all of whose membership rows are rejected or expired
resolves to none; and the effective permission sets form a strict chain
OWNER ⊃ EDITOR ⊃ VIEWER. -/
theorem C7_role_resolution (db : AppDB) (uid pid : Nat) :
    (∀ p : ProjectRec, projGet db pid = some p → p.owner_id = uid →
      get_user_role uid pid db = some .owner) ∧
    (∀ m : MembershipRec,
      (projGet db pid).all (fun p => p.owner_id != uid) = true →
      db.memberships.find? (fun mm =>
        mm.user_id == uid && mm.project_id == pid && mm.status == "accepted") = some m →
      get_user_role uid pid db = some m.role) ∧
    ((projGet db pid).all (fun p => p.owner_id != uid) = true →
      db.memberships.all (fun mm =>
        !(mm.user_id == uid) || !(mm.project_id == pid) ||
          (mm.status == "rejected" || mm.status == "expired")) = true →
      get_user_role uid pid db = none) ∧
    (get_effective_permissions .editor ⊆ get_effective_permissions .owner ∧
      ¬ get_effective_permissions .owner ⊆ get_effective_permissions .editor ∧
      get_effective_permissions .viewer ⊆ get_effective_permissions .editor ∧
      ¬ get_effective_permissions .editor ⊆ get_effective_permissions .viewer) := by
  refine ⟨?_, ?_, ?_, ?_⟩
  · intro p hp howner
    simp [get_user_role, hp, howner]
  · intro m hown hfind
    unfold get_user_role
    cases hp : projGet db pid with
    | none => simp [hp, hfind]
    | some p =>
      have : (p.owner_id == uid) = false := by
        have := hown
        simp [hp, Option.all] at this
        simpa using this
      simp [hp, this, hfind]
  · intro hown hall
    unfold get_user_role
    have hfind : db.memberships.find? (fun mm =>
        mm.user_id == uid && mm.project_id == pid && mm.status == "accepted") = none := by
      rw [List.find?_eq_none]
      intro mm hmm
      have h1 := List.all_eq_true.mp hall mm hmm
      intro hcontra
      simp only [Bool.and_eq_true, beq_iff_eq] at hcontra
      obtain ⟨⟨hu, hp2⟩, hs⟩ := hcontra
      simp [hu, hp2, hs] at h1
    cases hp : projGet db pid with
    | none => simp [hp, hfind]
    | some p =>
      have : (p.owner_id == uid) = false := by
        have := hown
        simp [hp, Option.all] at this
        simpa using this
      simp [hp, this, hfind]
  · refine ⟨?_, ?_, ?_, ?_⟩ <;> decide

/-- Claim C7 witness: a concrete state exercising each hypothesis of the
role-resolution theorem. -/
theorem C7_witness :
    get_user_role 1 1 ⟨[pFix], []⟩ = some .owner ∧
    get_user_role 2 1 dbEditorFix = some .editor ∧
    get_user_role 2 1 dbRejectedFix = none := by
  refine ⟨?_, ?_, ?_⟩
  · exact (C7_role_resolution ⟨[pFix], []⟩ 1 1).1 pFix rfl rfl
  · exact (C7_role_resolution dbEditorFix 2 1).2.1 ⟨2, 1, .editor, "accepted"⟩ rfl rfl
  · exact (C7_role_resolution dbRejectedFix 2 1).2.2.1 rfl rfl

/-- Claim C1 counterexample: an accepted EDITOR membership grants the
data-creation permission in the Permission Engine, yet the dynamic row
gate denies the same user with 403 — the row layer authorizes by literal
ownership, not by the engine. -/
theorem C1_counterexample :
    has_permission .editor "data:create" = true ∧
    get_user_role 2 1 dbEditorFix = some .editor ∧
    rows_verify_access 1 2 dbEditorFix = .error .forbidden := by
  exact ⟨rfl, rfl, rfl⟩

/-- Claim C1 as amended: the Schema Engine operations (create, list,
drop, get-schema) gate through the Permission Engine — project lookup,
role resolution, then the editor/viewer hierarchy check, plus the
provisioning-status recheck on creation — while the Dynamic Row Access
Layer operations (insert row, select rows) gate only on literal ownership
and completed provisioning status, never consulting the Permission
Engine; so a non-owner whose role grants data permissions is denied on
row operations. -/
theorem C1_amended_gates (db : AppDB) (pid uid : Nat) (p : ProjectRec)
    (h : projGet db pid = some p) :
    (require_project_editor pid uid db = .ok p ↔
      ∃ r, get_user_role uid pid db = some r ∧ has_role_or_higher r .editor = true) ∧
    (require_project_viewer pid uid db = .ok p ↔
      ∃ r, get_user_role uid pid db = some r ∧ has_role_or_higher r .viewer = true) ∧
    (create_table_gate pid uid db = .ok p ↔
      ((∃ r, get_user_role uid pid db = some r ∧ has_role_or_higher r .editor = true) ∧
        p.provisioning_status = "completed")) ∧
    (rows_verify_access pid uid db = .ok p ↔
      (p.owner_id = uid ∧ p.provisioning_status = "completed")) := by
  have heditor : require_project_editor pid uid db = .ok p ↔
      ∃ r, get_user_role uid pid db = some r ∧ has_role_or_higher r .editor = true := by
    unfold require_project_editor get_project_with_role
    rw [h]
    cases hr : get_user_role uid pid db with
    | none => simp
    | some r =>
      by_cases hh : has_role_or_higher r .editor = true
      · simp [hh]
      · simp only [Bool.not_eq_true] at hh
        simp [hh]
  refine ⟨heditor, ?_, ?_, ?_⟩
  · unfold require_project_viewer get_project_with_role
    rw [h]
    cases hr : get_user_role uid pid db with
    | none => simp
    | some r =>
      by_cases hh : has_role_or_higher r .viewer = true
      · simp [hh]
      · simp only [Bool.not_eq_true] at hh
        simp [hh]
  · unfold create_table_gate
    rw [← heditor]
    cases he : require_project_editor pid uid db with
    | error e => simp [Bind.bind, Except.bind]
    | ok q =>
      by_cases hs : q.provisioning_status = "completed"
      · simp only [Bind.bind, Except.bind, hs, bne_self_eq_false, Bool.false_eq_true,
          if_false, Except.ok.injEq]
        constructor
        · intro hqp
          exact ⟨hqp, hqp ▸ hs⟩
        · rintro ⟨hqp, _⟩
          exact hqp
      · have hbne : (q.provisioning_status != "completed") = true := by
          simpa [bne] using hs
        simp only [Bind.bind, Except.bind, hbne, if_true, Except.ok.injEq]
        constructor
        · intro hcontra
          cases hcontra
        · rintro ⟨hqp, hps⟩
          exact absurd (by rw [hqp]; exact hps) hs
  · unfold rows_verify_access
    rw [h]
    by_cases ho : p.owner_id = uid
    · by_cases hs : p.provisioning_status = "completed"
      · simp [ho, hs]
      · simp [ho, hs]
    · simp [ho]

/-- Claim C1 witness: on a concrete state, the table gate admits an
accepted editor and the row gate admits the owner. -/
theorem C1_witness :
    require_project_editor 1 2 dbEditorFix = .ok pFix ∧
    rows_verify_access 1 1 dbEditorFix = .ok pFix := by
  constructor
  · exact ((C1_amended_gates dbEditorFix 1 2 pFix rfl).1).mpr ⟨.editor, rfl, rfl⟩
  · exact ((C1_amended_gates dbEditorFix 1 1 pFix rfl).2.2.2).mpr ⟨rfl, rfl⟩

/-- The example table of claims C3 and C4's witness: an auto-increment
integer primary key and a non-nullable text column. -/
def cols3Fix : List ColInfo :=
  [⟨"id", "integer", false, some "nextval(products_id_seq::regclass)", true⟩,
   ⟨"name", "text", false, none, false⟩]

/-- Claim C3 (code bug): when the payload lists the auto-increment
primary-key column before another column, the skipped entry still
advances the positional index, so the generated statement references a
parameter beyond the supplied values and the insert fails — it succeeds
only when the primary-key entry comes after every other column, when it
behaves exactly as if the key were absent. -/
theorem C3_pk_in_payload_eval :
    insert_dynamic_row cols3Fix [("id", .vInt 1), ("name", .vStr "Ada")] =
      .error .paramCountMismatch ∧
    insert_dynamic_row cols3Fix [("name", .vStr "Ada")] =
      .ok ⟨[quoteIdent "name"], [.text "Ada"], ["$1"]⟩ ∧
    insert_dynamic_row cols3Fix [("name", .vStr "Ada"), ("id", .vInt 1)] =
      .ok ⟨[quoteIdent "name"], [.text "Ada"], ["$1"]⟩ := by
  exact ⟨rfl, rfl, rfl⟩

/-- The table of claim C4's counterexample: a non-auto-increment text
primary key (no default) plus a non-nullable text column. -/
def cols4Fix : List ColInfo :=
  [⟨"ref", "text", false, none, true⟩,
   ⟨"name", "text", false, none, false⟩]

/-- The required-column set exactly as the claim words it: non-nullable,
no default, and not an auto-increment primary key (auto-increment being
visible as a nextval default in the introspected shape). -/
def specRequiredC4 (cols : List ColInfo) : List String :=
  (cols.filter (fun c => !c.nullable && c.default.isNone &&
    !(c.is_primary_key && containsSeq "nextval".data (defaultStr c.default).data))).map
    (fun c => c.name)

/-- Claim C4 counterexample: on a table whose primary key is not
auto-increment, the claim's required set contains the key column ref, yet
the empty payload fails with a missing-columns error enumerating only
name — the code excludes every primary key from the required set, not
only auto-increment ones. -/
theorem C4_counterexample :
    insert_dynamic_row cols4Fix [] = .error (.missingColumns ["name"]) ∧
    specRequiredC4 cols4Fix = ["ref", "name"] := by
  exact ⟨rfl, rfl⟩

/-- Claim C4 as amended: the required-column set is exactly the columns
that are non-nullable, have no default, and are not a primary key (any
primary key, auto-increment or not, is excluded); whenever the payload
keys are all known and omit a required column, Insert fails before any
statement is issued with a missing-columns error enumerating exactly the
omitted required columns. -/
theorem C4_amended_required_columns (cols : List ColInfo)
    (payload : List (String × PyVal))
    (hknown : payload.all (fun kv => (cols.map (fun c => c.name)).contains kv.1) = true)
    (hmiss : (requiredNames cols).any
      (fun n => !((payload.map (fun kv => kv.1)).contains n)) = true) :
    insert_dynamic_row cols payload =
      .error (.missingColumns ((requiredNames cols).filter
        (fun n => !((payload.map (fun kv => kv.1)).contains n)))) ∧
    (∀ x, x ∈ requiredNames cols ↔
      ∃ c ∈ cols, c.name = x ∧ c.nullable = false ∧ c.default = none ∧
        c.is_primary_key = false) := by
  constructor
  · have hnone : payload.find?
        (fun kv => (cols.find? (fun c => c.name == kv.1)).isNone) = none := by
      rw [List.find?_eq_none]
      intro kv hkv hcontra
      rw [Option.isNone_iff_eq_none, List.find?_eq_none] at hcontra
      have hk := List.all_eq_true.mp hknown kv hkv
      have hk2 : kv.1 ∈ List.map (fun c => c.name) cols := by simpa using hk
      obtain ⟨c, hc, hcn⟩ := List.mem_map.mp hk2
      exact hcontra c hc (by simpa using hcn)
    have hie : ((requiredNames cols).filter
        (fun n => !((payload.map (fun kv => kv.1)).contains n))).isEmpty = false := by
      obtain ⟨n, hn, hpred⟩ := List.any_eq_true.mp hmiss
      have hmem : n ∈ (requiredNames cols).filter
          (fun n => !((payload.map (fun kv => kv.1)).contains n)) :=
        List.mem_filter.mpr ⟨hn, hpred⟩
      cases hcase : (requiredNames cols).filter
          (fun n => !((payload.map (fun kv => kv.1)).contains n)) with
      | nil =>
        rw [hcase] at hmem
        cases hmem
      | cons a as => rfl
    unfold insert_dynamic_row
    split
    · next kv heq =>
      rw [hnone] at heq
      cases heq
    · next heq =>
      simp only []
      rw [hie]
      simp
  · intro x
    constructor
    · intro hx
      obtain ⟨c, hc, hname⟩ := List.mem_map.mp hx
      obtain ⟨hcin, hpred⟩ := List.mem_filter.mp hc
      have h1 := hpred
      simp only [Bool.and_eq_true, Bool.not_eq_true', Option.isNone_iff_eq_none] at h1
      exact ⟨c, hcin, hname, h1.1.1, h1.1.2, h1.2⟩
    · rintro ⟨c, hcin, hname, hnul, hdef, hpk⟩
      refine List.mem_map.mpr ⟨c, List.mem_filter.mpr ⟨hcin, ?_⟩, hname⟩
      simp [hnul, hdef, hpk]

/-- The example table of section 8 of the spec: auto-increment id,
non-nullable name, boolean active with a default. -/
def colsActiveFix : List ColInfo :=
  cols3Fix ++ [⟨"active", "boolean", true, some "true", false⟩]

/-- Claim C4 witness: the empty payload against the id/name/active
example table produces the missing-columns error listing exactly name. -/
theorem C4_witness :
    insert_dynamic_row colsActiveFix [] = .error (.missingColumns ["name"]) := by
  exact (C4_amended_required_columns colsActiveFix [] rfl rfl).1

/-- The table of claim C6's counterexample: its primary key is named key,
so it has no column named id. -/
def tKeyFix : DynTable :=
  ⟨[⟨"key", "integer", false, some "nextval(t_key_seq::regclass)", true⟩,
    ⟨"val", "text", true, none, false⟩],
   [[("key", .int 1), ("val", .text "a")]]⟩

/-- A table whose primary key is named id, with rows out of id order. -/
def tIdFix : DynTable :=
  ⟨[⟨"id", "integer", false, some "nextval(t_id_seq::regclass)", true⟩],
   [[("id", .int 2)], [("id", .int 1)]]⟩

/-- Claim C6 counterexample: an existing table with a primary key named
key — Select fails with undefined-column instead of returning the rows in
primary-key order, because the statement orders by the literal column
name id. -/
theorem C6_counterexample :
    (tKeyFix.columns.any (fun c => c.is_primary_key)) = true ∧
    get_table_rows (some tKeyFix) none none = .error .undefinedColumnId := by
  exact ⟨rfl, rfl⟩

/-- Claim C6 as amended: Select sorts the rows by the column literally
named id (applying offset then limit to that order), errors with
undefined-column when the table has no column named id, and errors with
not-found when the table does not exist; no filtering or sorting by other
columns is available. -/
theorem C6_amended_select :
    (∀ (t : DynTable) (limit offset : Option Nat),
      (t.columns.map (fun c => c.name)).contains "id" = true →
      ∃ rs, List.Perm rs t.rows ∧ rs.Sorted rowLe ∧
        get_table_rows (some t) limit offset =
          .ok (match limit with
            | some l =>
              (match offset with
                | some o => rs.drop o
                | none => rs).take l
            | none =>
              match offset with
              | some o => rs.drop o
              | none => rs)) ∧
    (∀ (t : DynTable) (limit offset : Option Nat),
      (t.columns.map (fun c => c.name)).contains "id" = false →
      get_table_rows (some t) limit offset = .error .undefinedColumnId) ∧
    (∀ limit offset, get_table_rows none limit offset = .error .tableNotFound) := by
  refine ⟨?_, ?_, ?_⟩
  · intro t limit offset h
    refine ⟨t.rows.insertionSort rowLe, List.perm_insertionSort rowLe t.rows,
      List.sorted_insertionSort rowLe t.rows, ?_⟩
    unfold get_table_rows
    split
    · next hcond => cases hcond
    · next t2 heq =>
      cases heq
      split
      · next hcond =>
        rw [h] at hcond
        exact absurd hcond (by decide)
      · rfl
  · intro t limit offset h
    unfold get_table_rows
    split
    · next hcond => cases hcond
    · next t2 heq =>
      cases heq
      split
      · rfl
      · next hcond =>
        rw [h] at hcond
        exact absurd rfl hcond
  · intro limit offset
    rfl

/-- Claim C6 witness: on a concrete id-keyed table with rows out of
order, Select returns a sorted permutation of the rows. -/
theorem C6_witness :
    ∃ rs, List.Perm rs tIdFix.rows ∧ rs.Sorted rowLe ∧
      get_table_rows (some tIdFix) none none = .ok rs := by
  obtain ⟨rs, h1, h2, h3⟩ := C6_amended_select.1 tIdFix none none rfl
  exact ⟨rs, h1, h2, h3⟩

end Sovera
